import Mathlib

/-
Formal model of the `astrbot_plugin_matchreminder` plugin.

The development shallowly embeds the three source files of the repository:

* `data_source.py` — `ContestDataManager`: per-source fetch loops with retry
  and exponential backoff (`get_data_cf`, `get_data_nc`, `get_data_atc`),
  the persisted cache (`_load_cache`), and the aggregated today query
  (`get_today_info`).
* `main.py` — the reminder loop's next-fire-time computation
  (`reminder_loop`, lines 256-276).
* `config.py` — `ConfigManager.toggle_auto_reminder`.

Network responses are modelled by an environment `Nat → Outcome` giving, for
each attempt index, what the attempt's network/parse step produces: a raised
exception, an API-level error status, or a parsed payload.  `await
asyncio.sleep` calls are recorded in an output trace of waited seconds, and
the number of loop iterations entered is recorded as an attempt count, so a
fetch call evaluates to `(list, success, sleeps, attempts)`.  Wall-clock
times are modelled at second precision in one fixed reference zone (the code
uses the process-local zone uniformly); `time.strftime`/`strptime` are
implemented over the proleptic Gregorian calendar.  `_save_cache` only
writes the snapshot file and never changes the in-memory lists, so the fetch
models omit the file system.
-/

namespace MatchReminder

/-- Leap-year test of the proleptic Gregorian calendar (as used by Python's
`datetime`). -/
def isLeap (y : Nat) : Bool := y % 4 == 0 && (y % 100 != 0 || y % 400 == 0)

/-- Number of days in month `m` of year `y` (months numbered 1..12). -/
def daysInMonth (y m : Nat) : Nat :=
  if m == 2 then (if isLeap y then 29 else 28)
  else if m == 4 || m == 6 || m == 9 || m == 11 then 30
  else 31

/-- Civil date from a count of days since 1970-01-01 (floor-division form of
the standard days-to-civil algorithm); returns `(year, month, day)`. -/
def civilFromDays (z0 : Int) : Int × Int × Int :=
  let z := z0 + 719468
  let era := z.ediv 146097
  let doe := z.emod 146097
  let yoe := (doe - doe.ediv 1460 + doe.ediv 36524 - doe.ediv 146096).ediv 365
  let y := yoe + era * 400
  let doy := doe - (365 * yoe + yoe.ediv 4 - yoe.ediv 100)
  let mp := (5 * doy + 2).ediv 153
  let d := doy - (153 * mp + 2).ediv 5 + 1
  let m := mp + (if mp < 10 then 3 else -9)
  (y + (if m ≤ 2 then 1 else 0), m, d)

/-- Days since 1970-01-01 of the civil date `(y, m, d)` (inverse of
`civilFromDays`). -/
def daysFromCivil (y0 m d : Int) : Int :=
  let y := y0 - (if m ≤ 2 then 1 else 0)
  let era := y.ediv 400
  let yoe := y - era * 400
  let doy := (153 * (m + (if m > 2 then -3 else 9)) + 2).ediv 5 + d - 1
  let doe := yoe * 365 + yoe.ediv 4 - yoe.ediv 100 + doy
  era * 146097 + doe - 719468

/-- Zero-padded two-digit decimal rendering. -/
def pad2 (n : Int) : String := if n < 10 then "0" ++ toString n else toString n

/-- Four-digit year rendering (zero-padded, as `strftime` renders years). -/
def pad4 (n : Int) : String :=
  if n < 10 then "000" ++ toString n
  else if n < 100 then "00" ++ toString n
  else if n < 1000 then "0" ++ toString n
  else toString n

/-- Model of Python `time.strftime("%Y-%m-%d %H:%M", time.localtime(sec))`:
render an epoch-second count as a minute-precision timestamp string in the
fixed reference zone. -/
def fmtHM (sec : Int) : String :=
  let days := sec.ediv 86400
  let rem := sec.emod 86400
  let c := civilFromDays days
  pad4 c.1 ++ "-" ++ pad2 c.2.1 ++ "-" ++ pad2 c.2.2 ++ " " ++
    pad2 (rem.ediv 3600) ++ ":" ++ pad2 ((rem.emod 3600).ediv 60)

/-- Naive datetime produced by the `strptime` parsers. -/
structure Dt where
  year : Nat
  month : Nat
  day : Nat
  hour : Nat
  minute : Nat
  second : Nat
  deriving DecidableEq, Repr

/-- Digit value of a character, if it is a decimal digit. -/
def digitVal (c : Char) : Option Nat :=
  if c.isDigit then some (c.toNat - 48) else none

/-- Model of `datetime.strptime(s, "%Y-%m-%d %H:%M:%S")` on the fixed-width
rendering of that format (the only shape the plugin ever feeds it): parses
and range-checks the fields, `none` standing for a raised `ValueError`. -/
def strptimeYmdHMS (s : String) : Option Dt :=
  match s.data with
  | [y1, y2, y3, y4, c1, m1, m2, c2, d1, d2, c3, h1, h2, c4, n1, n2, c5, s1, s2] =>
    match digitVal y1, digitVal y2, digitVal y3, digitVal y4, digitVal m1,
        digitVal m2, digitVal d1, digitVal d2, digitVal h1, digitVal h2,
        digitVal n1, digitVal n2, digitVal s1, digitVal s2 with
    | some a1, some a2, some a3, some a4, some b1, some b2, some e1, some e2,
        some f1, some f2, some g1, some g2, some k1, some k2 =>
      if c1 = '-' ∧ c2 = '-' ∧ c3 = ' ' ∧ c4 = ':' ∧ c5 = ':' then
        let y := ((a1 * 10 + a2) * 10 + a3) * 10 + a4
        let mo := b1 * 10 + b2
        let d := e1 * 10 + e2
        let h := f1 * 10 + f2
        let mi := g1 * 10 + g2
        let ss := k1 * 10 + k2
        if 1 ≤ mo ∧ mo ≤ 12 ∧ 1 ≤ d ∧ d ≤ daysInMonth y mo ∧ h ≤ 23 ∧
            mi ≤ 59 ∧ ss ≤ 59 then
          some ⟨y, mo, d, h, mi, ss⟩
        else none
      else none
    | _, _, _, _, _, _, _, _, _, _, _, _, _, _ => none
  | _ => none

/-- Model of `datetime.strptime(s, "%Y-%m-%d %H:%M")` (fixed-width form), as
used by `get_today_info` on the stored minute-precision time strings. -/
def strptimeYmdHM (s : String) : Option Dt :=
  match s.data with
  | [y1, y2, y3, y4, c1, m1, m2, c2, d1, d2, c3, h1, h2, c4, n1, n2] =>
    match digitVal y1, digitVal y2, digitVal y3, digitVal y4, digitVal m1,
        digitVal m2, digitVal d1, digitVal d2, digitVal h1, digitVal h2,
        digitVal n1, digitVal n2 with
    | some a1, some a2, some a3, some a4, some b1, some b2, some e1, some e2,
        some f1, some f2, some g1, some g2 =>
      if c1 = '-' ∧ c2 = '-' ∧ c3 = ' ' ∧ c4 = ':' then
        let y := ((a1 * 10 + a2) * 10 + a3) * 10 + a4
        let mo := b1 * 10 + b2
        let d := e1 * 10 + e2
        let h := f1 * 10 + f2
        let mi := g1 * 10 + g2
        if 1 ≤ mo ∧ mo ≤ 12 ∧ 1 ≤ d ∧ d ≤ daysInMonth y mo ∧ h ≤ 23 ∧
            mi ≤ 59 then
          some ⟨y, mo, d, h, mi, 0⟩
        else none
      else none
    | _, _, _, _, _, _, _, _, _, _, _, _ => none
  | _ => none

/-- Epoch seconds of a parsed naive datetime in the reference zone. -/
def dtToEpoch (t : Dt) : Int :=
  daysFromCivil t.year t.month t.day * 86400 +
    (t.hour * 3600 + t.minute * 60 + t.second : Nat)

/-- Calendar date `(year, month, day)` of a parsed datetime, modelling
`datetime.date()`. -/
def dtDate (t : Dt) : Nat × Nat × Nat := (t.year, t.month, t.day)

/-- Contest record as stored by `ContestDataManager`: the Python code keeps
`[name, "YYYY-MM-DD HH:MM" time string, url]` triples. -/
structure ContestInfo where
  name : String
  time : String
  url : String
  deriving DecidableEq, Repr

/-- Result of one fetch call: the final in-memory list for the source, the
returned success flag, the trace of `asyncio.sleep` seconds performed
between attempts, and the number of retry-loop iterations entered. -/
abbrev FetchResult := List ContestInfo × Bool × List Nat × Nat

/-- One entry of the Codeforces `result` array, with the fields the code
reads (`phase`, `name`, `startTimeSeconds`, `id`). -/
structure CfEntry where
  phase : String
  name : String
  startTimeSeconds : Nat
  id : Nat
  deriving DecidableEq, Repr

/-- Outcome of one Codeforces attempt (`get_data_cf`, `data_source.py`
lines 89-120):
`exc appended` = a raised exception caught by one of the `except` clauses;
since records are appended to `self.cf` inside the parse loop, a later
malformed entry can raise mid-loop, so the exception leaves in the cleared
list exactly the records already appended — `appended` is that prefix of
well-formed upcoming entries (empty when the request, the status check or
the first entry raised), and no `reverse()` runs on it;
`badStatus` = HTTP succeeded but `data.get('status') != 'OK'` (the
`continue` at line 99, with the list still cleared);
`ok` = the attempt decoded and looped over a `result` array without
raising. -/
inductive CfOutcome where
  | exc (appended : List CfEntry)
  | badStatus
  | ok (result : List CfEntry)

/-- Record built from one Codeforces entry (`data_source.py` lines 104-108). -/
def cfEntryToInfo (e : CfEntry) : ContestInfo :=
  ⟨e.name, fmtHM e.startTimeSeconds,
    "https://codeforces.com/contest/" ++ toString e.id⟩

/-- The append loop of `get_data_cf` (lines 101-108): walk the `result`
array from the front, `break` at the first entry whose `phase` is not
`"BEFORE"`, append a record for each entry before it. -/
def cfCollect : List CfEntry → List ContestInfo
  | [] => []
  | e :: rest =>
    if e.phase ≠ "BEFORE" then [] else cfEntryToInfo e :: cfCollect rest

/-- Successful-attempt body of `get_data_cf` (lines 101-110): collect the
upcoming prefix, then `self.cf.reverse()`. -/
def cfProcess (entries : List CfEntry) : List ContestInfo :=
  (cfCollect entries).reverse

/-- The `for attempt in range(max_retries)` loop of `get_data_cf`
(lines 89-125), recursing on the remaining iteration count `fuel`
(`fuel = maxRetries - attempt` at each call).  Every iteration starts with
`self.cf.clear()`, so the recursive calls pass `[]`; the list argument is
only returned when the loop exhausts without a `return True`.  A
`badStatus` iteration ends in `continue`, which skips the
`if attempt < max_retries - 1: await asyncio.sleep(2 ** attempt)` at the
loop's bottom; an `exc` iteration falls through to it. -/
def cfGo (env : Nat → CfOutcome) (maxRetries : Nat) :
    Nat → Nat → List ContestInfo → FetchResult
  | 0, _, cf => (cf, false, [], 0)
  | fuel + 1, attempt, _ =>
    match env attempt with
    | .ok entries => (cfProcess entries, true, [], 1)
    | .badStatus =>
      let r := cfGo env maxRetries fuel (attempt + 1) []
      (r.1, r.2.1, r.2.2.1, r.2.2.2 + 1)
    | .exc appended =>
      let r := cfGo env maxRetries fuel (attempt + 1) (appended.map cfEntryToInfo)
      (r.1, r.2.1,
        (if attempt < maxRetries - 1 then [2 ^ attempt] else []) ++ r.2.2.1,
        r.2.2.2 + 1)

/-- Model of `ContestDataManager.get_data_cf` (lines 73-125): short-circuit
to success when `force_refresh` is false and the held list is non-empty,
else run the 3-attempt retry loop. -/
def get_data_cf (env : Nat → CfOutcome) (force_refresh : Bool)
    (cf : List ContestInfo) : FetchResult :=
  if !force_refresh && !cf.isEmpty then (cf, true, [], 0)
  else cfGo env 3 3 0 cf

/-- One entry of the Nowcoder calendar payload, with the fields the code
reads (`contestName`, `startTime` in milliseconds, `link`); the code reads
each with `.get` and a default, so the fields are total. -/
structure NcEntry where
  contestName : String
  startTime : Nat
  link : String
  deriving DecidableEq, Repr

/-- Outcome of one Nowcoder attempt (`get_data_nc`, lines 143-180):
`exc processed` = a raised exception caught by one of the `except` clauses;
records are appended inside the entry loop, so an exception on a later
entry (e.g. a non-comparable `startTime`) leaves in the cleared list the
records of the entries already handled — `processed` is that prefix of
well-formed entries (empty when the request, the status check or the first
entry raised), and the list left is its filtered image;
`badStatus` = `msg != "OK" or code != 0` (the `continue` at line 161, list
still cleared); `ok` = the attempt decoded and looped over a `data` array
without raising. -/
inductive NcOutcome where
  | exc (processed : List NcEntry)
  | badStatus
  | ok (data : List NcEntry)

/-- The entry loop of `get_data_nc` (lines 164-169): keep each entry whose
`startTime` is at or after the request's own issue timestamp
`current_timestamp` (milliseconds), in source order, converting the start
time to a minute-precision string. -/
def ncProcess (nowMs : Nat) (entries : List NcEntry) : List ContestInfo :=
  entries.filterMap fun e =>
    if e.startTime ≥ nowMs then
      some ⟨e.contestName, fmtHM ((e.startTime : Int).ediv 1000), e.link⟩
    else none

/-- The retry loop of `get_data_nc` (lines 143-185), same shape as `cfGo`:
clear-first iterations, `continue` on a bad API status skipping the
backoff sleep, exceptions falling through to it. -/
def ncGo (env : Nat → NcOutcome) (nowMs : Nat) (maxRetries : Nat) :
    Nat → Nat → List ContestInfo → FetchResult
  | 0, _, nc => (nc, false, [], 0)
  | fuel + 1, attempt, _ =>
    match env attempt with
    | .ok entries => (ncProcess nowMs entries, true, [], 1)
    | .badStatus =>
      let r := ncGo env nowMs maxRetries fuel (attempt + 1) []
      (r.1, r.2.1, r.2.2.1, r.2.2.2 + 1)
    | .exc processed =>
      let r := ncGo env nowMs maxRetries fuel (attempt + 1) (ncProcess nowMs processed)
      (r.1, r.2.1,
        (if attempt < maxRetries - 1 then [2 ^ attempt] else []) ++ r.2.2.1,
        r.2.2.2 + 1)

/-- Model of `ContestDataManager.get_data_nc` (lines 127-185).  `nowMs` is
the request-issue timestamp `int(float(timestamp) * 1000)`; the model fixes
one value for the whole call. -/
def get_data_nc (env : Nat → NcOutcome) (nowMs : Nat) (force_refresh : Bool)
    (nc : List ContestInfo) : FetchResult :=
  if !force_refresh && !nc.isEmpty then (nc, true, [], 0)
  else ncGo env nowMs 3 3 0 nc

/-- Records a failed Codeforces attempt leaves in the cleared `self.cf`:
a mid-loop exception leaves the records appended before the raise
(un-reversed, since `reverse()` only runs after a completed loop); a
bad-status attempt leaves the list cleared. -/
def cfLeftover : CfOutcome → List ContestInfo
  | .exc appended => appended.map cfEntryToInfo
  | _ => []

/-- Records a failed Nowcoder attempt leaves in the cleared `self.nc`: the
filtered image of the entries handled before the raise, or nothing for a
bad-status attempt. -/
def ncLeftover (nowMs : Nat) : NcOutcome → List ContestInfo
  | .exc processed => ncProcess nowMs processed
  | _ => []

/-- Prefix test on character lists: does the second list start with the
first? -/
def charsMatch : List Char → List Char → Bool
  | [], _ => true
  | _ :: _, [] => false
  | p :: ps, c :: cs => p == c && charsMatch ps cs

/-- Fuel-indexed worker for `pyReplace` (fuel bounds the number of
characters consumed, so `length` fuel always suffices). -/
def pyReplaceGo (pat repl : List Char) : Nat → List Char → List Char
  | 0, l => l
  | _ + 1, [] => []
  | fuel + 1, c :: cs =>
    if charsMatch pat (c :: cs) && !pat.isEmpty then
      repl ++ pyReplaceGo pat repl fuel ((c :: cs).drop pat.length)
    else c :: pyReplaceGo pat repl fuel cs

/-- Model of Python `str.replace`: replace every non-overlapping occurrence
of `pat`, left to right (the plugin only calls it with a non-empty
pattern). -/
def pyReplace (s pat repl : String) : String :=
  ⟨pyReplaceGo pat.data repl.data s.data.length s.data⟩

/-- Whitespace characters stripped by Python `str.strip()`. -/
def isPySpace (c : Char) : Bool :=
  c == ' ' || c == '\t' || c == '\n' || c == '\r' || c == '\x0b' || c == '\x0c'

/-- Model of Python `str.strip()`: drop leading and trailing whitespace. -/
def pyStrip (s : String) : String :=
  ⟨((s.data.dropWhile isPySpace).reverse.dropWhile isPySpace).reverse⟩

/-- An anchor tag inside an AtCoder name cell: its text and its `href`
attribute (the code reads both; a missing `href` would raise an uncaught
`TypeError`, so the model keeps it total alongside the text). -/
structure AtcAnchor where
  text : String
  href : String
  deriving DecidableEq, Repr

/-- One `td` cell of the AtCoder upcoming-contests table: `anchor` is the
first `a` tag (if any) and `timeText` the text of the first `time` element
(if any) — `none` makes the corresponding `find(...)` return `None`, so the
subsequent attribute access raises the caught `AttributeError`. -/
structure AtcCell where
  anchor : Option AtcAnchor
  timeText : Option String
  deriving DecidableEq, Repr

/-- Parsed shape of one AtCoder page (`get_data_atc` lines 210-224):
`noTable` = no `contest-table-upcoming` div, `noTbody` = no `tbody` inside
it, `cells` = the `td` cells of the table body. -/
inductive AtcPage where
  | noTable
  | noTbody
  | cells (cs : List AtcCell)

/-- Outcome of one AtCoder attempt: a raised exception, or a fetched page. -/
inductive AtcOutcome where
  | exc
  | page (p : AtcPage)

/-- Indices `range(0, stop, 5)` of Python. -/
def pyRange5 (stop : Nat) : List Nat :=
  (List.range ((stop + 4) / 5)).map (· * 5)

/-- Row parser of `get_data_atc` (lines 229-248): for the row at cell index
`i`, read the name and link from the anchor of `cells[i + 1]`, the time from
the `time` element of `cells[i]` (drop the `+0900` suffix, strip, parse as
`%Y-%m-%d %H:%M:%S`, subtract one hour, truncate to minute precision).
`none` stands for a raised `AttributeError`/`ValueError`/`IndexError`, which
the inner `except` turns into skipping the row. -/
def atcParseRow (cs : List AtcCell) (i : Nat) : Option ContestInfo :=
  match cs.get? (i + 1) with
  | none => none
  | some nameCell =>
    match nameCell.anchor with
    | none => none
    | some a =>
      let contestName := pyStrip a.text
      let contestUrl := "https://atcoder.jp" ++ a.href
      match cs.get? i with
      | none => none
      | some timeCell =>
        match timeCell.timeText with
        | none => none
        | some raw =>
          match strptimeYmdHMS (pyStrip (pyReplace raw "+0900" "")) with
          | none => none
          | some dt => some ⟨contestName, fmtHM (dtToEpoch dt - 3600), contestUrl⟩

/-- The row loop of `get_data_atc` (lines 227-248):
`for i in range(0, min(len(cells), 10), 5)`, collecting the rows that parse
and skipping (with a log) the ones that raise. -/
def atcParseRows (cs : List AtcCell) : List ContestInfo :=
  (pyRange5 (min cs.length 10)).filterMap (atcParseRow cs)

/-- The retry loop of `get_data_atc` (lines 203-264).  A missing table,
missing tbody, or fewer than 10 cells each end the iteration with
`continue` (skipping the backoff sleep).  When rows were parsed
(`contests_data` truthy) the code keeps the first two and returns `True`;
when the parse produced nothing, control falls out of the `try` block to the
backoff sleep and the next attempt, exactly like an exception. -/
def atcGo (env : Nat → AtcOutcome) (maxRetries : Nat) :
    Nat → Nat → List ContestInfo → FetchResult
  | 0, _, atc => (atc, false, [], 0)
  | fuel + 1, attempt, _ =>
    match env attempt with
    | .exc =>
      let r := atcGo env maxRetries fuel (attempt + 1) []
      (r.1, r.2.1,
        (if attempt < maxRetries - 1 then [2 ^ attempt] else []) ++ r.2.2.1,
        r.2.2.2 + 1)
    | .page .noTable =>
      let r := atcGo env maxRetries fuel (attempt + 1) []
      (r.1, r.2.1, r.2.2.1, r.2.2.2 + 1)
    | .page .noTbody =>
      let r := atcGo env maxRetries fuel (attempt + 1) []
      (r.1, r.2.1, r.2.2.1, r.2.2.2 + 1)
    | .page (.cells cs) =>
      if cs.length < 10 then
        let r := atcGo env maxRetries fuel (attempt + 1) []
        (r.1, r.2.1, r.2.2.1, r.2.2.2 + 1)
      else
        let contestsData := atcParseRows cs
        if !contestsData.isEmpty then (contestsData.take 2, true, [], 1)
        else
          let r := atcGo env maxRetries fuel (attempt + 1) []
          (r.1, r.2.1,
            (if attempt < maxRetries - 1 then [2 ^ attempt] else []) ++ r.2.2.1,
            r.2.2.2 + 1)

/-- Model of `ContestDataManager.get_data_atc` (lines 187-264). -/
def get_data_atc (env : Nat → AtcOutcome) (force_refresh : Bool)
    (atc : List ContestInfo) : FetchResult :=
  if !force_refresh && !atc.isEmpty then (atc, true, [], 0)
  else atcGo env 3 3 0 atc

/-- Value found under the `timestamp` key of the cache dictionary: a number,
or some non-numeric JSON value (whose subtraction from `time.time()` raises
the caught `TypeError`). -/
inductive TsVal where
  | num (t : Int)
  | nonNum
  deriving DecidableEq

/-- Decoded top-level JSON object of the cache file, with the keys
`_load_cache` reads via `.get` (absent keys yield the defaults). -/
structure CacheDict where
  timestamp : Option TsVal
  cf : Option (List ContestInfo)
  nc : Option (List ContestInfo)
  atc : Option (List ContestInfo)

/-- State of the persisted cache file as seen by `_load_cache`:
missing, existing but unreadable (`open`/`read` raises `OSError`),
readable but not JSON (`json.load` raises `JSONDecodeError`), valid JSON
whose top-level value is not an object (so `cache_data.get` raises
`AttributeError`), or a JSON object. -/
inductive CacheFile where
  | missing
  | unreadable
  | notJson
  | jsonNonDict
  | jsonDict (d : CacheDict)

/-- Exceptions `_load_cache` can let escape: its `except` clause catches
only `json.JSONDecodeError`, `KeyError` and `TypeError`. -/
inductive PyErr where
  | osError
  | attributeError
  deriving DecidableEq, Repr

/-- Model of `ContestDataManager._load_cache` (`data_source.py` lines
42-57), run at construction when all three lists are `[]`: the returned
`Except` value is the final `(cf, nc, atc)` triple, or the exception that
escapes.  A caught exception and every non-adopting path leave the lists as
initialised, i.e. empty. -/
def load_cache (file : CacheFile) (now : Int) :
    Except PyErr (List ContestInfo × List ContestInfo × List ContestInfo) :=
  match file with
  | .missing => .ok ([], [], [])
  | .unreadable => .error .osError
  | .notJson => .ok ([], [], [])
  | .jsonNonDict => .error .attributeError
  | .jsonDict d =>
    match d.timestamp with
    | some .nonNum => .ok ([], [], [])
    | some (.num t) =>
      if now - t < 3600 then .ok (d.cf.getD [], d.nc.getD [], d.atc.getD [])
      else .ok ([], [], [])
    | none =>
      if now - 0 < 3600 then .ok (d.cf.getD [], d.nc.getD [], d.atc.getD [])
      else .ok ([], [], [])

/-- The three per-source lists held by a `ContestDataManager`. -/
structure MgrState where
  cf : List ContestInfo
  nc : List ContestInfo
  atc : List ContestInfo
  deriving DecidableEq, Repr

/-- The per-platform filter of `get_today_info` (lines 327-336): keep the
formatted block of each contest whose stored time string parses with
`"%Y-%m-%d %H:%M"` to today's date; a `ValueError` skips the contest. -/
def todayBlocks (today : Nat × Nat × Nat) (contests : List ContestInfo) :
    List String :=
  contests.filterMap fun c =>
    match strptimeYmdHM c.time with
    | some dt =>
      if dtDate dt = today then
        some ("比赛名称：" ++ c.name ++ "\n比赛时间：" ++ c.time ++
          "\n比赛链接：" ++ c.url)
      else none
    | none => none

/-- Reply construction of `get_today_info` (lines 318-347), over the
post-refresh state: build the per-platform blocks, then reply with the
generic failure message when all three held lists are empty
(`if not any([self.cf, self.nc, self.atc])`), with the no-contests-today
message when no platform has a contest today, and otherwise with the found
listing. -/
def todayReply (today : Nat × Nat × Nat) (s' : MgrState) : String :=
  let msgParts :=
    ([("◉Codeforces比赛：", s'.cf), ("◉牛客比赛：", s'.nc),
      ("◉AtCoder比赛：", s'.atc)]).filterMap
      fun p =>
        let blocks := todayBlocks today p.2
        if blocks.isEmpty then none
        else some (p.1 ++ "\n" ++ String.intercalate "\n\n" blocks)
  if s'.cf.isEmpty && s'.nc.isEmpty && s'.atc.isEmpty then
    "查询出错了，稍后再尝试哦~"
  else if msgParts.isEmpty then
    "今天没有比赛，但也要好好做题哦~"
  else
    "找到今天的比赛如下：\n\n" ++ String.intercalate "\n\n" msgParts

/-- Model of `ContestDataManager.get_today_info` (lines 308-347): refresh
all three sources (with `force_refresh` false; `asyncio.gather` with
`return_exceptions=True` discards the individual results), then build the
reply from the held lists.  Returns the post-refresh state and the reply
string. -/
def get_today_info (envCf : Nat → CfOutcome) (envNc : Nat → NcOutcome)
    (ncNowMs : Nat) (envAtc : Nat → AtcOutcome) (today : Nat × Nat × Nat)
    (s : MgrState) : MgrState × String :=
  let s' : MgrState :=
    ⟨(get_data_cf envCf false s.cf).1, (get_data_nc envNc ncNowMs false s.nc).1,
      (get_data_atc envAtc false s.atc).1⟩
  (s', todayReply today s')

/-- Python `datetime` value as used by `reminder_loop`: the date is a count
of days since the epoch; hour, minute, second and microsecond are the clock
fields (in range for every value `datetime.now()` can produce). -/
structure PyDateTime where
  day : Nat
  hour : Nat
  minute : Nat
  second : Nat
  usec : Nat
  deriving DecidableEq, Repr

/-- Microseconds since the epoch of a `PyDateTime`; `datetime` comparison
and subtraction agree with this linearisation for in-range fields. -/
def toUsec (t : PyDateTime) : Nat :=
  (((t.day * 24 + t.hour) * 60 + t.minute) * 60 + t.second) * 1000000 + t.usec

/-- Next-fire-time computation of `MatchReminderPlugin.reminder_loop`
(`main.py` lines 269-271): `target_time = now.replace(hour=target_hour,
minute=target_minute, second=0, microsecond=0)`, then one day is added when
`target_time <= now`. -/
def reminderTarget (now : PyDateTime) (targetHour targetMinute : Nat) :
    PyDateTime :=
  let target : PyDateTime := ⟨now.day, targetHour, targetMinute, 0, 0⟩
  if toUsec target ≤ toUsec now then
    ⟨target.day + 1, target.hour, target.minute, target.second, target.usec⟩
  else target

/-- The reminder-time dictionary of `Config` (`config.py` line 9), holding
the hour and minute as strings. -/
structure ReminderTime where
  hour : String
  minute : String
  deriving DecidableEq, Repr

/-- The plugin configuration (`config.py` lines 7-13). -/
structure Config where
  matchreminder_time : ReminderTime
  matchreminder_list : List String
  enable_auto_reminder : Bool
  deriving DecidableEq, Repr

/-- Model of `ConfigManager.toggle_auto_reminder` (`config.py` lines
112-121): negate the flag in place, call `save_config()` (file I/O that
cannot change the in-memory config and whose result is discarded), and
return the new flag value.  Returns the updated config and the returned
Bool. -/
def toggle_auto_reminder (c : Config) : Config × Bool :=
  let c' : Config := { c with enable_auto_reminder := !c.enable_auto_reminder }
  (c', c'.enable_auto_reminder)

theorem atcGo_fail_empty (env : Nat → AtcOutcome) (mr : Nat) :
    ∀ (fuel attempt : Nat) (atc : List ContestInfo),
      (atcGo env mr (fuel + 1) attempt atc).2.1 = false →
      (atcGo env mr (fuel + 1) attempt atc).1 = [] := by
  intro fuel
  induction fuel with
  | zero =>
    intro attempt atc h
    cases he : env attempt with
    | exc => simp [atcGo, he]
    | page p =>
      cases p with
      | noTable => simp [atcGo, he]
      | noTbody => simp [atcGo, he]
      | cells cs =>
        simp only [atcGo, he] at h ⊢
        by_cases hlen : cs.length < 10
        · simp [hlen, atcGo]
        · simp only [hlen, ite_false, if_false] at h ⊢
          cases hne : (atcParseRows cs).isEmpty
          · simp [hne] at h
          · simp [hne, atcGo]
  | succ n ih =>
    intro attempt atc h
    cases he : env attempt with
    | exc =>
      simp only [atcGo, he] at h ⊢
      exact ih (attempt + 1) [] h
    | page p =>
      cases p with
      | noTable =>
        simp only [atcGo, he] at h ⊢
        exact ih (attempt + 1) [] h
      | noTbody =>
        simp only [atcGo, he] at h ⊢
        exact ih (attempt + 1) [] h
      | cells cs =>
        simp only [atcGo, he] at h ⊢
        by_cases hlen : cs.length < 10
        · simp only [hlen, ite_true, if_true] at h ⊢
          exact ih (attempt + 1) [] h
        · simp only [hlen, ite_false, if_false] at h ⊢
          cases hne : (atcParseRows cs).isEmpty
          · simp [hne] at h
          · simp only [hne, Bool.not_true, Bool.false_eq_true, ite_false] at h ⊢
            exact ih (attempt + 1) [] h

theorem cfGo_attempts_le (env : Nat → CfOutcome) (mr : Nat) :
    ∀ (fuel attempt : Nat) (cf : List ContestInfo),
      (cfGo env mr fuel attempt cf).2.2.2 ≤ fuel := by
  intro fuel
  induction fuel with
  | zero => intro attempt cf; simp [cfGo]
  | succ n ih =>
    intro attempt cf
    cases he : env attempt with
    | exc appended =>
      simp only [cfGo, he]
      have := ih (attempt + 1) (appended.map cfEntryToInfo)
      omega
    | badStatus =>
      simp only [cfGo, he]
      have := ih (attempt + 1) []
      omega
    | ok entries =>
      simp only [cfGo, he]
      omega

/-- Claim C1 fails on the code: every retry-loop iteration of
`get_data_cf` begins with `self.cf.clear()`, so a fetch call that exhausts
its attempts does not leave the previously held list unchanged — here a
force-refreshed call that fails loses the one record it held. -/
theorem cf_failed_fetch_changes_list :
    (get_data_cf (fun _ => CfOutcome.exc []) true
        [⟨"A", "2026-01-01 00:00", "u"⟩]).2.1 = false ∧
    (get_data_cf (fun _ => CfOutcome.exc []) true
        [⟨"A", "2026-01-01 00:00", "u"⟩]).1 ≠
      [⟨"A", "2026-01-01 00:00", "u"⟩] := by
  constructor
  · rfl
  · decide

/-- Claim C1, amended: a fetch call that returns failure never retains the
previously held list — each attempt clears it, so after failure the list
holds exactly what the final attempt appended before failing: the partial
records of a mid-parse exception for Sources A and B (empty when the final
attempt failed before any append), and always nothing for Source C, whose
list is only assigned on success.  With `force_refresh` false a failure can
only happen when the held list was already empty, because a non-empty list
short-circuits to success. -/
theorem failed_fetch_keeps_final_appends (envCf : Nat → CfOutcome)
    (envNc : Nat → NcOutcome) (nowMs : Nat) (envAtc : Nat → AtcOutcome)
    (f : Bool) (cf nc atc : List ContestInfo) :
    ((get_data_cf envCf f cf).2.1 = false →
      (get_data_cf envCf f cf).1 = cfLeftover (envCf 2) ∧
        (f = false → cf = [])) ∧
    ((get_data_nc envNc nowMs f nc).2.1 = false →
      (get_data_nc envNc nowMs f nc).1 = ncLeftover nowMs (envNc 2) ∧
        (f = false → nc = [])) ∧
    ((get_data_atc envAtc f atc).2.1 = false →
      (get_data_atc envAtc f atc).1 = [] ∧ (f = false → atc = [])) := by
  refine ⟨?_, ?_, ?_⟩
  · intro h
    unfold get_data_cf at h ⊢
    by_cases hc : (!f && !cf.isEmpty) = true
    · simp [hc] at h
    · simp only [hc, if_neg, if_false, Bool.false_eq_true, not_false_eq_true,
        ite_false] at h ⊢
      refine ⟨?_, ?_⟩
      · cases h0 : envCf 0 <;> cases h1 : envCf 1 <;> cases h2 : envCf 2 <;>
          simp_all [cfGo, cfLeftover]
      · intro hf
        subst hf
        simp only [Bool.not_false, Bool.true_and] at hc
        simpa using hc
  · intro h
    unfold get_data_nc at h ⊢
    by_cases hc : (!f && !nc.isEmpty) = true
    · simp [hc] at h
    · simp only [hc, if_neg, if_false, Bool.false_eq_true, not_false_eq_true,
        ite_false] at h ⊢
      refine ⟨?_, ?_⟩
      · cases h0 : envNc 0 <;> cases h1 : envNc 1 <;> cases h2 : envNc 2 <;>
          simp_all [ncGo, ncLeftover]
      · intro hf
        subst hf
        simp only [Bool.not_false, Bool.true_and] at hc
        simpa using hc
  · intro h
    unfold get_data_atc at h ⊢
    by_cases hc : (!f && !atc.isEmpty) = true
    · simp [hc] at h
    · simp only [hc, if_neg, if_false, Bool.false_eq_true, not_false_eq_true,
        ite_false] at h ⊢
      refine ⟨atcGo_fail_empty envAtc 3 2 0 atc h, ?_⟩
      intro hf
      subst hf
      simp only [Bool.not_false, Bool.true_and] at hc
      simpa using hc

/-- Witness for the amended C1 theorem at concrete failing runs: the
Codeforces run raises on its second entry in every attempt and so retains
one partially parsed record; the Nowcoder and AtCoder runs fail before
appending anything and end empty. -/
theorem failed_fetch_keeps_final_appends_witness :
    (get_data_cf (fun _ => CfOutcome.exc [⟨"BEFORE", "p", 100, 7⟩]) true
        [⟨"A", "2026-01-01 00:00", "u"⟩]).1 =
      [cfEntryToInfo ⟨"BEFORE", "p", 100, 7⟩] ∧
    (get_data_nc (fun _ => NcOutcome.exc []) 0 true []).1 = [] ∧
    (get_data_atc (fun _ => AtcOutcome.exc) true []).1 = [] :=
  ⟨((failed_fetch_keeps_final_appends
      (fun _ => CfOutcome.exc [⟨"BEFORE", "p", 100, 7⟩])
      (fun _ => NcOutcome.exc []) 0 (fun _ => AtcOutcome.exc) true
      [⟨"A", "2026-01-01 00:00", "u"⟩] [] []).1 rfl).1,
   ((failed_fetch_keeps_final_appends
      (fun _ => CfOutcome.exc [⟨"BEFORE", "p", 100, 7⟩])
      (fun _ => NcOutcome.exc []) 0 (fun _ => AtcOutcome.exc) true
      [⟨"A", "2026-01-01 00:00", "u"⟩] [] []).2.1 rfl).1,
   ((failed_fetch_keeps_final_appends
      (fun _ => CfOutcome.exc [⟨"BEFORE", "p", 100, 7⟩])
      (fun _ => NcOutcome.exc []) 0 (fun _ => AtcOutcome.exc) true
      [⟨"A", "2026-01-01 00:00", "u"⟩] [] []).2.2 rfl).1⟩

theorem found_reply_ne_err (s : String) :
    ("找到今天的比赛如下：\n\n" ++ s) ≠ "查询出错了，稍后再尝试哦~" := by
  intro h
  have h2 := congrArg (fun t : String => t.data.head?) h
  simp only [String.data_append] at h2
  simp at h2

theorem todayReply_err_iff (today : Nat × Nat × Nat) (s' : MgrState) :
    todayReply today s' = "查询出错了，稍后再尝试哦~" ↔
      (s'.cf = [] ∧ s'.nc = [] ∧ s'.atc = []) := by
  simp only [todayReply]
  by_cases hall : (s'.cf.isEmpty && s'.nc.isEmpty && s'.atc.isEmpty) = true
  · rw [if_pos hall]
    simp only [Bool.and_eq_true, List.isEmpty_iff] at hall
    simp [hall.1.1, hall.1.2, hall.2]
  · rw [if_neg hall]
    simp only [Bool.and_eq_true, List.isEmpty_iff, not_and] at hall
    constructor
    · intro h
      split at h
      · exact absurd h (by decide)
      · exact absurd h (found_reply_ne_err _)
    · intro ⟨h1, h2, h3⟩
      exact absurd h3 (hall ⟨h1, h2⟩)

/-- Claim C2 fails on the code: `get_today_info` produces the generic "no
data available" reply purely from all three held lists being empty — it
keeps no record of whether a source has ever succeeded.  Here the
Codeforces fetch succeeds (with a legitimately empty upcoming list), the
other two sources fail, and the query still yields the "no data available"
signal. -/
theorem today_signal_despite_success :
    (get_data_cf (fun _ => CfOutcome.ok []) false ([] : List ContestInfo)).2.1
        = true ∧
    (get_today_info (fun _ => CfOutcome.ok []) (fun _ => NcOutcome.exc []) 0
        (fun _ => AtcOutcome.exc) (2026, 10, 12) ⟨[], [], []⟩).2 =
      "查询出错了，稍后再尝试哦~" :=
  ⟨rfl, rfl⟩

/-- Claim C2, amended: the today query returns the "no data available"
signal if and only if all three per-source lists held after the refresh
attempts are empty — success history plays no role, so a source that
succeeded with an empty result does not prevent the signal. -/
theorem today_signal_iff_all_empty (envCf : Nat → CfOutcome)
    (envNc : Nat → NcOutcome) (ncNowMs : Nat) (envAtc : Nat → AtcOutcome)
    (today : Nat × Nat × Nat) (s : MgrState) :
    (get_today_info envCf envNc ncNowMs envAtc today s).2 =
        "查询出错了，稍后再尝试哦~" ↔
      ((get_today_info envCf envNc ncNowMs envAtc today s).1.cf = [] ∧
       (get_today_info envCf envNc ncNowMs envAtc today s).1.nc = [] ∧
       (get_today_info envCf envNc ncNowMs envAtc today s).1.atc = []) := by
  unfold get_today_info
  exact todayReply_err_iff today _

/-- Claim C3 fails on the code for Source C: an AtCoder page whose
upcoming-contests tbody is present but holds no cells (zero upcoming
contests, no network or parse error anywhere) hits the
`len(cells) < 10` check, which ends the attempt with `continue`; all three
attempts are consumed and the fetch returns failure instead of success with
an empty list. -/
theorem atc_zero_record_page_fails :
    get_data_atc (fun _ => AtcOutcome.page (.cells [])) true [] =
      ([], false, [], 3) :=
  rfl

/-- Claim C3, amended: an error-free attempt with zero records is a
successful fetch (one attempt, empty list, no waits) for Source A and
Source B; Source C instead treats a zero-record page as a failed attempt
(its success path requires a non-empty parse), so a fetch seeing only such
pages returns failure after its three attempts. -/
theorem zero_record_fetch_by_source (envCf : Nat → CfOutcome)
    (envNc : Nat → NcOutcome) (nowMs : Nat) (envAtc : Nat → AtcOutcome)
    (entries : List CfEntry) (ncEntries : List NcEntry) :
    (envCf 0 = CfOutcome.ok entries → cfProcess entries = [] →
      get_data_cf envCf true [] = ([], true, [], 1)) ∧
    (envNc 0 = NcOutcome.ok ncEntries → ncProcess nowMs ncEntries = [] →
      get_data_nc envNc nowMs true [] = ([], true, [], 1)) ∧
    ((∀ a, envAtc a = AtcOutcome.page (.cells [])) →
      get_data_atc envAtc true [] = ([], false, [], 3)) := by
  refine ⟨?_, ?_, ?_⟩
  · intro h0 hp
    simp [get_data_cf, cfGo, h0, hp]
  · intro h0 hp
    simp [get_data_nc, ncGo, h0, hp]
  · intro h
    simp [get_data_atc, atcGo, h 0, h 1, h 2, atcParseRows, pyRange5]

/-- Witness for the amended C3 theorem at concrete inputs: a Codeforces
payload whose single entry is already running, an empty Nowcoder calendar,
and an empty AtCoder table body. -/
theorem zero_record_fetch_by_source_witness :
    get_data_cf (fun _ => CfOutcome.ok [⟨"CODING", "c", 0, 1⟩]) true [] =
        ([], true, [], 1) ∧
    get_data_nc (fun _ => NcOutcome.ok []) 0 true [] = ([], true, [], 1) ∧
    get_data_atc (fun _ => AtcOutcome.page (.cells [])) true [] =
        ([], false, [], 3) :=
  ⟨(zero_record_fetch_by_source (fun _ => CfOutcome.ok [⟨"CODING", "c", 0, 1⟩])
      (fun _ => NcOutcome.ok []) 0
      (fun _ => AtcOutcome.page (.cells [])) [⟨"CODING", "c", 0, 1⟩] []).1
      rfl (by decide),
   (zero_record_fetch_by_source (fun _ => CfOutcome.ok [⟨"CODING", "c", 0, 1⟩])
      (fun _ => NcOutcome.ok []) 0
      (fun _ => AtcOutcome.page (.cells [])) [⟨"CODING", "c", 0, 1⟩] []).2.1
      rfl rfl,
   (zero_record_fetch_by_source (fun _ => CfOutcome.ok [⟨"CODING", "c", 0, 1⟩])
      (fun _ => NcOutcome.ok []) 0
      (fun _ => AtcOutcome.page (.cells [])) [⟨"CODING", "c", 0, 1⟩] []).2.2
      (fun _ => rfl)⟩

/-- Claim C4 fails on the code: `_load_cache` catches only
`json.JSONDecodeError`, `KeyError` and `TypeError`, so a cache file that
exists but cannot be read (`OSError` from `open`/`read`) and a readable
file whose top-level JSON value is not an object (`AttributeError` from
`cache_data.get`) both raise to the caller instead of returning absent. -/
theorem load_cache_raises :
    load_cache CacheFile.unreadable 0 = Except.error PyErr.osError ∧
    load_cache CacheFile.jsonNonDict 0 = Except.error PyErr.attributeError :=
  ⟨rfl, rfl⟩

/-- Claim C4, amended: the cache load returns absent — all three lists
left empty — without raising, for a missing file and for every content
whose failure is a caught `JSONDecodeError`/`KeyError`/`TypeError`
(non-JSON text, a non-numeric timestamp); but an unreadable file raises
`OSError` and a valid-JSON non-object file raises `AttributeError` to the
caller, and these two file states are exactly the ones on which the load
raises. -/
theorem load_cache_behavior (now : Int) :
    load_cache CacheFile.missing now = Except.ok ([], [], []) ∧
    load_cache CacheFile.notJson now = Except.ok ([], [], []) ∧
    (∀ cfF ncF atcF,
      load_cache (CacheFile.jsonDict ⟨some .nonNum, cfF, ncF, atcF⟩) now =
        Except.ok ([], [], [])) ∧
    load_cache CacheFile.unreadable now = Except.error PyErr.osError ∧
    load_cache CacheFile.jsonNonDict now = Except.error PyErr.attributeError ∧
    (∀ file, (∃ e, load_cache file now = Except.error e) ↔
      (file = CacheFile.unreadable ∨ file = CacheFile.jsonNonDict)) := by
  refine ⟨rfl, rfl, fun _ _ _ => rfl, rfl, rfl, ?_⟩
  intro file
  cases file with
  | missing => simp [load_cache]
  | unreadable => simp [load_cache]
  | notJson => simp [load_cache]
  | jsonNonDict => simp [load_cache]
  | jsonDict d =>
    obtain ⟨ts, cfF, ncF, atcF⟩ := d
    cases ts with
    | none => simp only [load_cache]; split <;> simp
    | some tv =>
      cases tv with
      | num t => simp only [load_cache]; split <;> simp
      | nonNum => simp [load_cache]

/-- Claim C5: for a persisted snapshot carrying timestamp `t`, the cache
load adopts the snapshot's three per-source lists when `now - t < 3600`
seconds, and treats the snapshot as absent (all three in-memory lists stay
empty) when `now - t ≥ 3600`, in both cases without raising. -/
theorem load_cache_ttl (now t : Int) (cfL ncL atcL : List ContestInfo) :
    (now - t < 3600 →
      load_cache (.jsonDict ⟨some (.num t), some cfL, some ncL, some atcL⟩)
          now = .ok (cfL, ncL, atcL)) ∧
    (3600 ≤ now - t →
      load_cache (.jsonDict ⟨some (.num t), some cfL, some ncL, some atcL⟩)
          now = .ok ([], [], [])) := by
  constructor
  · intro h
    simp [load_cache, h]
  · intro h
    simp [load_cache, not_lt.mpr h]

/-- Witness for C5 at a concrete fresh snapshot and a concrete stale one. -/
theorem load_cache_ttl_witness :
    load_cache (.jsonDict ⟨some (.num 100), some [⟨"a", "t", "u"⟩], some [],
        some []⟩) 200 = .ok ([⟨"a", "t", "u"⟩], [], []) ∧
    load_cache (.jsonDict ⟨some (.num 100), some [⟨"a", "t", "u"⟩], some [],
        some []⟩) 3700 = .ok ([], [], []) :=
  ⟨(load_cache_ttl 200 100 [⟨"a", "t", "u"⟩] [] []).1 (by decide),
   (load_cache_ttl 3700 100 [⟨"a", "t", "u"⟩] [] []).2 (by decide)⟩

/-- Claim C6 fails on the code: an attempt that fails because the API
reports a non-"OK" status ends in `continue`, which jumps past the
`await asyncio.sleep(2 ** attempt)` at the bottom of the loop — a fetch
whose three attempts all fail this way performs no inter-attempt wait at
all, instead of the claimed 1 s and 2 s waits. -/
theorem cf_bad_status_run_has_no_waits :
    get_data_cf (fun _ => CfOutcome.badStatus) true [] = ([], false, [], 3) ∧
    (get_data_cf (fun _ => CfOutcome.badStatus) true []).2.2.1 ≠ [1, 2] := by
  constructor
  · rfl
  · decide

/-- Claim C6, amended: every fetch call issues at most 3 attempts; a run
whose attempts all fail by raising an exception (each leaving its partial
appends `p a`) waits exactly `2 ^ attempt` seconds after each non-final
failure (1 s then 2 s) and returns failure after the third attempt with no
further wait, keeping the final attempt's partial records; while a run
whose attempts all fail on a non-"OK" API status retries immediately and
performs no waits at all. -/
theorem cf_retry_backoff (env : Nat → CfOutcome) (force : Bool)
    (cf : List ContestInfo) (p : Nat → List CfEntry) :
    (get_data_cf env force cf).2.2.2 ≤ 3 ∧
    ((∀ a, a < 3 → env a = CfOutcome.exc (p a)) →
      get_data_cf env true cf =
        ((p 2).map cfEntryToInfo, false, [1, 2], 3)) ∧
    ((∀ a, a < 3 → env a = CfOutcome.badStatus) →
      get_data_cf env true cf = ([], false, [], 3)) := by
  refine ⟨?_, ?_, ?_⟩
  · unfold get_data_cf
    split
    · simp
    · exact cfGo_attempts_le env 3 3 0 cf
  · intro h
    simp [get_data_cf, cfGo, h 0 (by omega), h 1 (by omega), h 2 (by omega)]
  · intro h
    simp [get_data_cf, cfGo, h 0 (by omega), h 1 (by omega), h 2 (by omega)]

/-- Witness for the amended C6 theorem at two concrete failing runs: one
whose attempts all raise mid-parse after one appended record, one whose
attempts all see a non-"OK" status. -/
theorem cf_retry_backoff_witness :
    (get_data_cf (fun _ => CfOutcome.exc [⟨"BEFORE", "p", 100, 7⟩]) true
        []).2.2.2 ≤ 3 ∧
    get_data_cf (fun _ => CfOutcome.exc [⟨"BEFORE", "p", 100, 7⟩]) true [] =
      ([cfEntryToInfo ⟨"BEFORE", "p", 100, 7⟩], false, [1, 2], 3) ∧
    get_data_cf (fun _ => CfOutcome.badStatus) true [] = ([], false, [], 3) :=
  ⟨(cf_retry_backoff (fun _ => CfOutcome.exc [⟨"BEFORE", "p", 100, 7⟩]) true
      [] (fun _ => [⟨"BEFORE", "p", 100, 7⟩])).1,
   (cf_retry_backoff (fun _ => CfOutcome.exc [⟨"BEFORE", "p", 100, 7⟩]) true
      [] (fun _ => [⟨"BEFORE", "p", 100, 7⟩])).2.1 (fun _ _ => rfl),
   (cf_retry_backoff (fun _ => CfOutcome.badStatus) true []
      (fun _ => [])).2.2 (fun _ _ => rfl)⟩

theorem cfCollect_eq_takeWhile (l : List CfEntry) :
    cfCollect l =
      (l.takeWhile fun e => e.phase == "BEFORE").map cfEntryToInfo := by
  induction l with
  | nil => simp [cfCollect]
  | cons e rest ih =>
    by_cases h : e.phase = "BEFORE"
    · simp [cfCollect, List.takeWhile_cons, h, ih]
    · simp [cfCollect, List.takeWhile_cons, h]

/-- Claim C7: the Codeforces entry loop collects exactly the prefix of the
result array before the first entry whose phase is not `"BEFORE"` and
reverses it — equivalently a `takeWhile`, `map`, `reverse` pipeline; in
particular a feed with phases `["BEFORE", "BEFORE", "CODING"]` keeps
exactly the first two entries, in reversed order. -/
theorem cf_upcoming_prefix_reversed (entries : List CfEntry)
    (e1 e2 e3 : CfEntry) :
    cfProcess entries =
      ((entries.takeWhile fun e => e.phase == "BEFORE").map
        cfEntryToInfo).reverse ∧
    (e1.phase = "BEFORE" → e2.phase = "BEFORE" → e3.phase = "CODING" →
      cfProcess [e1, e2, e3] = [cfEntryToInfo e2, cfEntryToInfo e1]) := by
  constructor
  · simp [cfProcess, cfCollect_eq_takeWhile]
  · intro h1 h2 h3
    simp [cfProcess, cfCollect, h1, h2, h3]

/-- Witness for C7 at a concrete three-entry feed. -/
theorem cf_upcoming_prefix_reversed_witness :
    cfProcess [⟨"BEFORE", "a", 0, 1⟩, ⟨"BEFORE", "b", 0, 2⟩,
        ⟨"CODING", "c", 0, 3⟩] =
      [cfEntryToInfo ⟨"BEFORE", "b", 0, 2⟩, cfEntryToInfo ⟨"BEFORE", "a", 0, 1⟩] :=
  (cf_upcoming_prefix_reversed [] ⟨"BEFORE", "a", 0, 1⟩ ⟨"BEFORE", "b", 0, 2⟩
    ⟨"CODING", "c", 0, 3⟩).2 rfl rfl rfl

theorem atcGo_success_len (env : Nat → AtcOutcome) (mr : Nat) :
    ∀ (fuel attempt : Nat) (atc : List ContestInfo),
      (atcGo env mr fuel attempt atc).2.1 = true →
      (atcGo env mr fuel attempt atc).1.length ≤ 2 := by
  intro fuel
  induction fuel with
  | zero => intro attempt atc h; simp [atcGo] at h
  | succ n ih =>
    intro attempt atc h
    cases he : env attempt with
    | exc =>
      simp only [atcGo, he] at h ⊢
      exact ih (attempt + 1) [] h
    | page p =>
      cases p with
      | noTable =>
        simp only [atcGo, he] at h ⊢
        exact ih (attempt + 1) [] h
      | noTbody =>
        simp only [atcGo, he] at h ⊢
        exact ih (attempt + 1) [] h
      | cells cs =>
        simp only [atcGo, he] at h ⊢
        by_cases hlen : cs.length < 10
        · simp only [hlen, ite_true, if_true] at h ⊢
          exact ih (attempt + 1) [] h
        · simp only [hlen, ite_false, if_false] at h ⊢
          cases hne : (atcParseRows cs).isEmpty
          · simp only [hne, Bool.not_false, ite_true]
            simp [List.length_take]
          · simp only [hne, Bool.not_true, Bool.false_eq_true, ite_false] at h ⊢
            exact ih (attempt + 1) [] h

/-- Claim C8: a Source C fetch that runs its retry loop and succeeds holds
at most 2 contest records, however many rows the page's upcoming table
lists (the row loop visits at most `min(len(cells), 10)` cells and the
success path keeps `contests_data[:2]`). -/
theorem atc_fetch_at_most_two (env : Nat → AtcOutcome)
    (atc : List ContestInfo)
    (h : (get_data_atc env true atc).2.1 = true) :
    (get_data_atc env true atc).1.length ≤ 2 := by
  unfold get_data_atc at h ⊢
  simp only [Bool.not_true, Bool.false_and, Bool.false_eq_true, if_false,
    ite_false] at h ⊢
  exact atcGo_success_len env 3 3 0 atc h

/-- Witness for C8: a page with ten cells whose first row parses (the
second row's name cell has no anchor and is skipped) yields a successful
one-record fetch. -/
theorem atc_fetch_at_most_two_witness :
    (get_data_atc (fun _ => AtcOutcome.page (.cells
      [⟨none, some "2026-01-01 10:00:00+0900"⟩,
       ⟨some ⟨" ABC 390 ", "/contests/abc390"⟩, none⟩,
       ⟨none, none⟩, ⟨none, none⟩, ⟨none, none⟩, ⟨none, none⟩, ⟨none, none⟩,
       ⟨none, none⟩, ⟨none, none⟩, ⟨none, none⟩])) true []).1.length ≤ 2 :=
  atc_fetch_at_most_two (fun _ => AtcOutcome.page (.cells
      [⟨none, some "2026-01-01 10:00:00+0900"⟩,
       ⟨some ⟨" ABC 390 ", "/contests/abc390"⟩, none⟩,
       ⟨none, none⟩, ⟨none, none⟩, ⟨none, none⟩, ⟨none, none⟩, ⟨none, none⟩,
       ⟨none, none⟩, ⟨none, none⟩, ⟨none, none⟩])) [] (by decide)

/-- Claim C9: whenever the configured fire time is valid (hour in 0..23,
minute in 0..59) and the current wall-clock fields are in range, the
next fire time computed by `reminder_loop` is strictly later than now and
at most 24 hours ahead; in particular with fire time 08:30 and current
time 08:31 the target is 08:30 on the following day. -/
theorem reminder_target_bounds :
    (∀ (now : PyDateTime) (h m : Nat), now.hour < 24 → now.minute < 60 →
      now.second < 60 → now.usec < 1000000 → h < 24 → m < 60 →
      toUsec now < toUsec (reminderTarget now h m) ∧
        toUsec (reminderTarget now h m) ≤ toUsec now + 86400000000) ∧
    (∀ d : Nat, reminderTarget ⟨d, 8, 31, 0, 0⟩ 8 30 = ⟨d + 1, 8, 30, 0, 0⟩) := by
  constructor
  · intro now h m hh hm hs hu hth htm
    simp only [reminderTarget]
    split
    · rename_i hle
      unfold toUsec at hle ⊢
      simp only at hle ⊢
      omega
    · rename_i hgt
      unfold toUsec at hgt ⊢
      simp only at hgt ⊢
      omega
  · intro d
    simp only [reminderTarget]
    rw [if_pos]
    unfold toUsec
    simp only
    omega

/-- Witness for C9 at the scenario's concrete instant (08:31, fire time
08:30): the target is strictly in the future, within 24 hours, and equals
08:30 the next day. -/
theorem reminder_target_bounds_witness :
    (toUsec ⟨0, 8, 31, 0, 0⟩ < toUsec (reminderTarget ⟨0, 8, 31, 0, 0⟩ 8 30) ∧
      toUsec (reminderTarget ⟨0, 8, 31, 0, 0⟩ 8 30) ≤
        toUsec ⟨0, 8, 31, 0, 0⟩ + 86400000000) ∧
    reminderTarget ⟨0, 8, 31, 0, 0⟩ 8 30 = ⟨1, 8, 30, 0, 0⟩ :=
  ⟨reminder_target_bounds.1 ⟨0, 8, 31, 0, 0⟩ 8 30 (by decide) (by decide)
      (by decide) (by decide) (by decide) (by decide),
   reminder_target_bounds.2 0⟩

/-- Claim C10: `toggle_auto_reminder` always flips the enabled flag, the
returned Bool is the new flag value, and two consecutive calls restore the
original flag (the operation is an involution on the flag). -/
theorem toggle_auto_reminder_involution (c : Config) :
    (toggle_auto_reminder c).2 = !c.enable_auto_reminder ∧
    (toggle_auto_reminder c).2 =
      ((toggle_auto_reminder c).1).enable_auto_reminder ∧
    ((toggle_auto_reminder
        (toggle_auto_reminder c).1).1).enable_auto_reminder =
      c.enable_auto_reminder := by
  simp [toggle_auto_reminder]

end MatchReminder
